import Mathlib

/-!
Verification development for an event-management HTTP API
(`src/main.py` of DanielCaruana-code/DatabaseEssentialsHome).

The file is a shallow embedding of the FastAPI + Motor/MongoDB handlers:

* the Mongo database is a record of per-collection lists of stored
  documents, each stored document carrying its server-assigned
  `_id` (modelled as a `Nat`) plus the model fields;
* `insert_one` appends a document with a fresh `_id` (a counter);
* `find().to_list(100)` is `List.take 100` in insertion order;
* `find_one` is `List.find?` in insertion order;
* `update_one` / `delete_one` touch the first document whose `_id`
  matches the query (in Mongo `_id` is unique, so "first" = "the");
* `bson.ObjectId(s)` on a string succeeds exactly on 24 hexadecimal
  characters and otherwise raises `bson.errors.InvalidId`, which no
  handler catches — that outcome is modelled as
  `HandlerError.invalidIdExn`, distinct from a raised `HTTPException`
  (`HandlerError.http status detail`);
* each handler returns its response (or raised error) together with
  the post-request database state.

Route registration (`@app.<method>(path)` decorators) is embedded as
the list `registeredRoutes`, in source order; the source registers
each media route twice, and the second definitions are embedded under
a `_dup` suffix so that both bodies can be compared.
-/

set_option autoImplicit false

namespace DBEss

/-- `bson.ObjectId(s)` for a string argument accepts exactly strings of
24 hexadecimal characters (case-insensitive). -/
def isHexChar (c : Char) : Bool :=
  c.isDigit || (('a' ≤ c) && (c ≤ 'f')) || (('A' ≤ c) && (c ≤ 'F'))

def hexVal (c : Char) : Nat :=
  if c.isDigit then c.toNat - '0'.toNat
  else if ('a' ≤ c) && (c ≤ 'f') then c.toNat - 'a'.toNat + 10
  else c.toNat - 'A'.toNat + 10

def isValidOidString (s : String) : Bool :=
  (s.length == 24) && s.toList.all isHexChar

/-- Parsing a path-parameter string into an ObjectId value: `some` of the
hex value on a well-formed 24-hex-character key, `none` when
`bson.ObjectId` would raise `InvalidId`. -/
def parseObjectId (s : String) : Option Nat :=
  if isValidOidString s then
    some (s.toList.foldl (fun a c => a * 16 + hexVal c) 0)
  else none

def hexDigitChar (n : Nat) : Char :=
  if n < 10 then Char.ofNat ('0'.toNat + n) else Char.ofNat ('a'.toNat + n - 10)

/-- `str(ObjectId)`: the 24-character lowercase hex rendering of the id. -/
def oidToString (n : Nat) : String :=
  String.mk ((List.range 24).map (fun i => hexDigitChar (n / 16 ^ (23 - i) % 16)))

/- DATA MODELS (the pydantic request models of `src/main.py`). -/

structure Event where
  name : String
  description : String
  date : String
  venue_id : String
  max_attendees : Int
deriving DecidableEq

structure Attendee where
  name : String
  email : String
  phone : Option String
deriving DecidableEq

structure Venue where
  name : String
  address : String
  capacity : Int
deriving DecidableEq

structure Booking where
  event_id : String
  attendee_id : String
  ticket_type : String
  quantity : Int
deriving DecidableEq

/-- A media attachment document as built by the upload handlers:
the owning entity id (stored under the `event_id` / `venue_id` key),
filename, declared content type, raw bytes and the upload timestamp. -/
structure MediaDoc where
  owner_id : String
  filename : String
  content_type : String
  content : List Nat
  uploaded_at : Nat
deriving DecidableEq

/-- A document as persisted: the server-assigned `_id` plus the fields. -/
structure Stored (α : Type) where
  oid : Nat
  fields : α
deriving DecidableEq

/-- A document as rendered by the list (GET) handlers: the `_id`
converted to a string, plus the model fields. -/
structure Rendered (α : Type) where
  idStr : String
  fields : α
deriving DecidableEq

/-- The state of `event_management_db`: one list per collection the
handlers touch, in insertion order, plus the fresh-id counter. -/
structure DB where
  events : List (Stored Event)
  attendees : List (Stored Attendee)
  venues : List (Stored Venue)
  bookings : List (Stored Booking)
  event_posters : List (Stored MediaDoc)
  promo_videos : List (Stored MediaDoc)
  venue_photos : List (Stored MediaDoc)
  nextId : Nat
deriving DecidableEq

def emptyDB : DB :=
  { events := [], attendees := [], venues := [], bookings := []
    event_posters := [], promo_videos := [], venue_photos := [], nextId := 0 }

/-- The outcome of a handler that does not return normally: either a
raised `HTTPException(status, detail)` (a structured error response),
or an exception that no handler catches — for these routes the uncaught
`bson.errors.InvalidId` raised on a malformed identifier — which the
framework surfaces as a generic server error. -/
inductive HandlerError where
  | http (status : Nat) (detail : String)
  | invalidIdExn (input : String)
deriving DecidableEq

/-- The `{"message": ..., "id": str(result.inserted_id)}` body returned
by the create and upload handlers. -/
structure CreateResp where
  message : String
  id : String
deriving DecidableEq

/-- The `StreamingResponse(io.BytesIO(content), media_type=...)` value
returned by the download handlers. -/
inductive MediaResp where
  | stream (content : List Nat) (media_type : String)
deriving DecidableEq

/-- A response is a structured client error when it is a raised
`HTTPException` with a 4xx status. -/
def isClientError {α : Type} : Except HandlerError α → Bool
  | .error (.http s _) => (400 ≤ s) && (s < 500)
  | _ => false

def okPart {α : Type} : Except HandlerError α → Option α
  | .ok a => some a
  | .error _ => none

def errStatus {α : Type} : Except HandlerError α → Option Nat
  | .error (.http s _) => some s
  | _ => none

/- GENERIC COLLECTION OPERATIONS (Motor driver calls). -/

/-- `insert_one`: append the document with a fresh `_id`. -/
def insertDoc {α : Type} (l : List (Stored α)) (nid : Nat) (x : α) :
    List (Stored α) :=
  l ++ [⟨nid, x⟩]

/-- `find().to_list(100)` followed by the `_id`-stringifying loop. -/
def renderList {α : Type} (l : List (Stored α)) : List (Rendered α) :=
  (l.take 100).map (fun d => ⟨oidToString d.oid, d.fields⟩)

/-- `update_one({"_id": oid}, {"$set": fields})`: replace the declared
fields of the first document whose `_id` matches, keep its `_id`. -/
def updateFirst {α : Type} (l : List (Stored α)) (oid : Nat) (x : α) :
    List (Stored α) :=
  match l with
  | [] => []
  | d :: rest =>
      if d.oid = oid then ⟨d.oid, x⟩ :: rest else d :: updateFirst rest oid x

/-- `delete_one({"_id": oid})`: remove the first matching document. -/
def deleteFirst {α : Type} (l : List (Stored α)) (oid : Nat) :
    List (Stored α) :=
  match l with
  | [] => []
  | d :: rest => if d.oid = oid then rest else d :: deleteFirst rest oid

/-- `matched_count` (resp. `deleted_count`) of a single-document write
against an `_id` filter: 1 when a match exists, else 0. -/
def matchCount {α : Type} (l : List (Stored α)) (oid : Nat) : Nat :=
  if l.any (fun d => d.oid = oid) then 1 else 0

/-- `find_one({owner-key: x})`: first document whose owning id is `x`. -/
def findOwner (l : List (Stored MediaDoc)) (x : String) :
    Option (Stored MediaDoc) :=
  l.find? (fun d => d.fields.owner_id == x)

/- EVENT ENDPOINTS. -/

def create_event (db : DB) (event : Event) : CreateResp × DB :=
  ({ message := "Event created", id := oidToString db.nextId },
   { db with events := insertDoc db.events db.nextId event,
             nextId := db.nextId + 1 })

def get_events (db : DB) : List (Rendered Event) :=
  renderList db.events

def update_event (db : DB) (event_id : String) (event : Event) :
    Except HandlerError String × DB :=
  match parseObjectId event_id with
  | none => (.error (.invalidIdExn event_id), db)
  | some oid =>
      let db' := { db with events := updateFirst db.events oid event }
      if matchCount db.events oid = 0 then
        (.error (.http 404 "Event not found"), db')
      else (.ok "Event updated successfully", db')

def delete_event (db : DB) (event_id : String) :
    Except HandlerError String × DB :=
  match parseObjectId event_id with
  | none => (.error (.invalidIdExn event_id), db)
  | some oid =>
      let db' := { db with events := deleteFirst db.events oid }
      if matchCount db.events oid = 0 then
        (.error (.http 404 "Event not found"), db')
      else (.ok "Event deleted successfully", db')

/- ATTENDEE ENDPOINTS. -/

def create_attendee (db : DB) (attendee : Attendee) : CreateResp × DB :=
  ({ message := "Attendee created", id := oidToString db.nextId },
   { db with attendees := insertDoc db.attendees db.nextId attendee,
             nextId := db.nextId + 1 })

def get_attendees (db : DB) : List (Rendered Attendee) :=
  renderList db.attendees

def update_attendee (db : DB) (id : String) (data : Attendee) :
    Except HandlerError String × DB :=
  match parseObjectId id with
  | none => (.error (.invalidIdExn id), db)
  | some oid =>
      let db' := { db with attendees := updateFirst db.attendees oid data }
      if matchCount db.attendees oid = 0 then
        (.error (.http 404 "Not found"), db')
      else (.ok "Attendee updated", db')

/-- `delete_attendee` never inspects `deleted_count`: it reports success
unconditionally. -/
def delete_attendee (db : DB) (id : String) :
    Except HandlerError String × DB :=
  match parseObjectId id with
  | none => (.error (.invalidIdExn id), db)
  | some oid =>
      (.ok "Attendee deleted", { db with attendees := deleteFirst db.attendees oid })

/- VENUE ENDPOINTS. -/

def create_venue (db : DB) (venue : Venue) : CreateResp × DB :=
  ({ message := "Venue created", id := oidToString db.nextId },
   { db with venues := insertDoc db.venues db.nextId venue,
             nextId := db.nextId + 1 })

def get_venues (db : DB) : List (Rendered Venue) :=
  renderList db.venues

/-- `update_venue` never inspects `matched_count`: it reports success
unconditionally. -/
def update_venue (db : DB) (id : String) (data : Venue) :
    Except HandlerError String × DB :=
  match parseObjectId id with
  | none => (.error (.invalidIdExn id), db)
  | some oid =>
      (.ok "Venue updated", { db with venues := updateFirst db.venues oid data })

/-- `delete_venue` never inspects `deleted_count`. -/
def delete_venue (db : DB) (id : String) :
    Except HandlerError String × DB :=
  match parseObjectId id with
  | none => (.error (.invalidIdExn id), db)
  | some oid =>
      (.ok "Venue deleted", { db with venues := deleteFirst db.venues oid })

/- BOOKING ENDPOINTS. -/

def create_booking (db : DB) (booking : Booking) : CreateResp × DB :=
  ({ message := "Booking successful", id := oidToString db.nextId },
   { db with bookings := insertDoc db.bookings db.nextId booking,
             nextId := db.nextId + 1 })

def get_bookings (db : DB) : List (Rendered Booking) :=
  renderList db.bookings

/-- `update_booking` never inspects `matched_count`. -/
def update_booking (db : DB) (id : String) (data : Booking) :
    Except HandlerError String × DB :=
  match parseObjectId id with
  | none => (.error (.invalidIdExn id), db)
  | some oid =>
      (.ok "Booking updated", { db with bookings := updateFirst db.bookings oid data })

/-- `delete_booking` never inspects `deleted_count`. -/
def delete_booking (db : DB) (id : String) :
    Except HandlerError String × DB :=
  match parseObjectId id with
  | none => (.error (.invalidIdExn id), db)
  | some oid =>
      (.ok "Booking deleted", { db with bookings := deleteFirst db.bookings oid })

/- MULTIMEDIA ENDPOINTS (first registrations, source lines 231-286). -/

/-- The multipart file payload: filename, declared content type, bytes. -/
structure FileUpload where
  filename : String
  content_type : String
  content : List Nat
deriving DecidableEq

def mkMediaDoc (owner : String) (file : FileUpload) (now : Nat) : MediaDoc :=
  { owner_id := owner, filename := file.filename,
    content_type := file.content_type, content := file.content,
    uploaded_at := now }

def upload_event_poster (db : DB) (event_id : String) (file : FileUpload)
    (now : Nat) : CreateResp × DB :=
  ({ message := "Event poster uploaded", id := oidToString db.nextId },
   { db with
       event_posters := insertDoc db.event_posters db.nextId (mkMediaDoc event_id file now)
       nextId := db.nextId + 1 })

def get_poster (db : DB) (event_id : String) : Except HandlerError MediaResp :=
  match findOwner db.event_posters event_id with
  | none => .error (.http 404 "File not found")
  | some d => .ok (.stream d.fields.content d.fields.content_type)

def upload_promo_video (db : DB) (event_id : String) (file : FileUpload)
    (now : Nat) : CreateResp × DB :=
  ({ message := "Promotional video uploaded", id := oidToString db.nextId },
   { db with
       promo_videos := insertDoc db.promo_videos db.nextId (mkMediaDoc event_id file now)
       nextId := db.nextId + 1 })

def get_promo_video (db : DB) (event_id : String) :
    Except HandlerError MediaResp :=
  match findOwner db.promo_videos event_id with
  | none => .error (.http 404 "Video not found")
  | some d => .ok (.stream d.fields.content d.fields.content_type)

def upload_venue_photo (db : DB) (venue_id : String) (file : FileUpload)
    (now : Nat) : CreateResp × DB :=
  ({ message := "Venue photo uploaded", id := oidToString db.nextId },
   { db with
       venue_photos := insertDoc db.venue_photos db.nextId (mkMediaDoc venue_id file now)
       nextId := db.nextId + 1 })

def get_venue_photo (db : DB) (venue_id : String) :
    Except HandlerError MediaResp :=
  match findOwner db.venue_photos venue_id with
  | none => .error (.http 404 "Photo not found")
  | some d => .ok (.stream d.fields.content d.fields.content_type)

/- MULTIMEDIA ENDPOINTS, SECOND REGISTRATIONS (source lines 288-371).
The source registers every media route a second time; the duplicated
bodies are embedded separately, under a `_dup` suffix, so the two
definitions of each route can be compared. -/

def upload_event_poster_dup (db : DB) (event_id : String) (file : FileUpload)
    (now : Nat) : CreateResp × DB :=
  ({ message := "Event poster uploaded", id := oidToString db.nextId },
   { db with
       event_posters := insertDoc db.event_posters db.nextId (mkMediaDoc event_id file now)
       nextId := db.nextId + 1 })

def get_poster_dup (db : DB) (event_id : String) :
    Except HandlerError MediaResp :=
  match findOwner db.event_posters event_id with
  | none => .error (.http 404 "File not found")
  | some d => .ok (.stream d.fields.content d.fields.content_type)

def upload_promo_video_dup (db : DB) (event_id : String) (file : FileUpload)
    (now : Nat) : CreateResp × DB :=
  ({ message := "Promotional video uploaded", id := oidToString db.nextId },
   { db with
       promo_videos := insertDoc db.promo_videos db.nextId (mkMediaDoc event_id file now)
       nextId := db.nextId + 1 })

def get_promo_video_dup (db : DB) (event_id : String) :
    Except HandlerError MediaResp :=
  match findOwner db.promo_videos event_id with
  | none => .error (.http 404 "Promotional video not found")
  | some d => .ok (.stream d.fields.content d.fields.content_type)

def upload_venue_photo_dup (db : DB) (venue_id : String) (file : FileUpload)
    (now : Nat) : CreateResp × DB :=
  ({ message := "Venue photo uploaded", id := oidToString db.nextId },
   { db with
       venue_photos := insertDoc db.venue_photos db.nextId (mkMediaDoc venue_id file now)
       nextId := db.nextId + 1 })

def get_venue_photo_dup (db : DB) (venue_id : String) :
    Except HandlerError MediaResp :=
  match findOwner db.venue_photos venue_id with
  | none => .error (.http 404 "Venue photo not found")
  | some d => .ok (.stream d.fields.content d.fields.content_type)

/- ROUTE REGISTRATION. -/

/-- The body of `root` (source lines 21-23): a redirect to `/docs`.
The function carries no `@app.get` decorator in the source, so it is
never registered as a route. -/
structure RedirectTo where
  url : String
deriving DecidableEq

def root : RedirectTo := { url := "/docs" }

/-- Every `(method, path)` pair registered by an `@app.<method>(path)`
decorator in `src/main.py`, in source order.  Note the absence of
`("GET", "/")` and the double registration of the six media routes. -/
def registeredRoutes : List (String × String) :=
  [("POST", "/events"), ("GET", "/events"),
   ("PUT", "/events/{event_id}"), ("DELETE", "/events/{event_id}"),
   ("POST", "/attendees"), ("GET", "/attendees"),
   ("PUT", "/attendees/{id}"), ("DELETE", "/attendees/{id}"),
   ("POST", "/venues"), ("GET", "/venues"),
   ("PUT", "/venues/{id}"), ("DELETE", "/venues/{id}"),
   ("POST", "/bookings"), ("GET", "/bookings"),
   ("PUT", "/bookings/{id}"), ("DELETE", "/bookings/{id}"),
   ("POST", "/upload_event_poster/{event_id}"), ("GET", "/get_poster/{event_id}"),
   ("POST", "/upload_promo_video/{event_id}"), ("GET", "/get_promo_video/{event_id}"),
   ("POST", "/upload_venue_photo/{venue_id}"), ("GET", "/get_venue_photo/{venue_id}"),
   ("POST", "/upload_event_poster/{event_id}"), ("GET", "/get_poster/{event_id}"),
   ("POST", "/upload_promo_video/{event_id}"), ("GET", "/get_promo_video/{event_id}"),
   ("POST", "/upload_venue_photo/{venue_id}"), ("GET", "/get_venue_photo/{venue_id}")]

/- SHARED SPECIFICATION PREDICATES AND HELPER LEMMAS. -/

/-- The frame condition of a single-document `$set` update on one list:
either the list is untouched and held no match, or exactly the first
matching document is replaced by one with the same `_id` and the new
fields, every other document staying in place. -/
def frameUpdate {α : Type} (l l' : List (Stored α)) (oid : Nat) (x : α) : Prop :=
  (l' = l ∧ ∀ d ∈ l, d.oid ≠ oid) ∨
  ∃ l₁ d l₂, l = l₁ ++ d :: l₂ ∧ d.oid = oid ∧ (∀ e ∈ l₁, e.oid ≠ oid) ∧
    l' = l₁ ++ (⟨oid, x⟩ : Stored α) :: l₂

theorem updateFirst_frame {α : Type} (l : List (Stored α)) (oid : Nat) (x : α) :
    frameUpdate l (updateFirst l oid x) oid x := by
  induction l with
  | nil => exact Or.inl ⟨rfl, by simp⟩
  | cons d rest ih =>
      by_cases h : d.oid = oid
      · exact Or.inr ⟨[], d, rest, rfl, h, by simp, by simp [updateFirst, h]⟩
      · rcases ih with ⟨heq, hnone⟩ | ⟨l₁, d', l₂, hl, hd', hnm, hl'⟩
        · refine Or.inl ⟨?_, ?_⟩
          · simp [updateFirst, h, heq]
          · intro e he
            rcases List.mem_cons.mp he with rfl | he
            · exact h
            · exact hnone e he
        · refine Or.inr ⟨d :: l₁, d', l₂, by simp [hl], hd', ?_, ?_⟩
          · intro e he
            rcases List.mem_cons.mp he with rfl | he
            · exact h
            · exact hnm e he
          · simp [updateFirst, h, hl']

/-- All collections other than `events` (and the id counter) coincide. -/
def framesExceptEvents (db db' : DB) : Prop :=
  db'.attendees = db.attendees ∧ db'.venues = db.venues ∧
  db'.bookings = db.bookings ∧ db'.event_posters = db.event_posters ∧
  db'.promo_videos = db.promo_videos ∧ db'.venue_photos = db.venue_photos ∧
  db'.nextId = db.nextId

def framesExceptAttendees (db db' : DB) : Prop :=
  db'.events = db.events ∧ db'.venues = db.venues ∧
  db'.bookings = db.bookings ∧ db'.event_posters = db.event_posters ∧
  db'.promo_videos = db.promo_videos ∧ db'.venue_photos = db.venue_photos ∧
  db'.nextId = db.nextId

def framesExceptVenues (db db' : DB) : Prop :=
  db'.events = db.events ∧ db'.attendees = db.attendees ∧
  db'.bookings = db.bookings ∧ db'.event_posters = db.event_posters ∧
  db'.promo_videos = db.promo_videos ∧ db'.venue_photos = db.venue_photos ∧
  db'.nextId = db.nextId

def framesExceptBookings (db db' : DB) : Prop :=
  db'.events = db.events ∧ db'.attendees = db.attendees ∧
  db'.venues = db.venues ∧ db'.event_posters = db.event_posters ∧
  db'.promo_videos = db.promo_videos ∧ db'.venue_photos = db.venue_photos ∧
  db'.nextId = db.nextId

theorem update_event_state (db : DB) (s : String) (oid : Nat) (e : Event)
    (h : parseObjectId s = some oid) :
    (update_event db s e).2 = { db with events := updateFirst db.events oid e } := by
  unfold update_event
  rw [h]
  dsimp only
  split <;> rfl

theorem update_attendee_state (db : DB) (s : String) (oid : Nat) (a : Attendee)
    (h : parseObjectId s = some oid) :
    (update_attendee db s a).2 =
      { db with attendees := updateFirst db.attendees oid a } := by
  unfold update_attendee
  rw [h]
  dsimp only
  split <;> rfl

theorem update_venue_state (db : DB) (s : String) (oid : Nat) (v : Venue)
    (h : parseObjectId s = some oid) :
    (update_venue db s v).2 = { db with venues := updateFirst db.venues oid v } := by
  unfold update_venue
  rw [h]

theorem update_booking_state (db : DB) (s : String) (oid : Nat) (b : Booking)
    (h : parseObjectId s = some oid) :
    (update_booking db s b).2 =
      { db with bookings := updateFirst db.bookings oid b } := by
  unfold update_booking
  rw [h]

/-- A freshly created document is visible in the rendered listing as long
as the collection held fewer than 100 documents before the insert. -/
theorem mem_renderList_insert {α : Type} (l : List (Stored α)) (nid : Nat)
    (x : α) (h : l.length < 100) :
    (⟨oidToString nid, x⟩ : Rendered α) ∈ renderList (insertDoc l nid x) := by
  unfold renderList insertDoc
  rw [List.take_of_length_le (by simp only [List.length_append, List.length_singleton]; omega)]
  exact List.mem_map.mpr ⟨⟨nid, x⟩, List.mem_append_right _ (by simp), rfl⟩

/-- After inserting an attachment for owner `x` into a list that held
none, the single-match lookup for `x` returns exactly that document. -/
theorem findOwner_insert_self (l : List (Stored MediaDoc)) (nid : Nat)
    (x : String) (f : FileUpload) (t : Nat) (h : findOwner l x = none) :
    findOwner (insertDoc l nid (mkMediaDoc x f t)) x =
      some ⟨nid, mkMediaDoc x f t⟩ := by
  unfold findOwner insertDoc
  unfold findOwner at h
  rw [List.find?_append, h]
  simp [mkMediaDoc]

theorem renderList_length_le {α : Type} (l : List (Stored α)) :
    (renderList l).length ≤ 100 := by
  unfold renderList
  rw [List.length_map, List.length_take]
  exact min_le_left _ _

/- CONCRETE INPUTS USED BY COUNTEREXAMPLES AND WITNESSES. -/

/-- A well-formed 24-hex-character identifier whose value is 0. -/
def oid0 : String := "000000000000000000000000"

def wEvent : Event :=
  { name := "Gala", description := "Annual gala", date := "2026-01-01",
    venue_id := "v1", max_attendees := 100 }

def wEventB : Event :=
  { name := "Launch", description := "Product launch", date := "2026-02-02",
    venue_id := "v2", max_attendees := 50 }

def wAttendee : Attendee :=
  { name := "Ann", email := "ann@example.com", phone := none }

def wVenue : Venue :=
  { name := "Hall A", address := "1 Main St", capacity := 200 }

def wBooking : Booking :=
  { event_id := "e1", attendee_id := "a1", ticket_type := "standard",
    quantity := 2 }

def wFile : FileUpload :=
  { filename := "poster.png", content_type := "image/png",
    content := [137, 80, 78, 71] }

/-- A database whose `events` collection already holds `n` documents. -/
def dbWithEvents (n : Nat) : DB :=
  { emptyDB with events := (List.range n).map (fun i => ⟨i, wEvent⟩),
                 nextId := n }

/-- A database whose `bookings` collection already holds `n` documents. -/
def dbWithBookings (n : Nat) : DB :=
  { emptyDB with bookings := (List.range n).map (fun i => ⟨i, wBooking⟩),
                 nextId := n }

instance exceptDecEq {ε α : Type} [DecidableEq ε] [DecidableEq α] :
    DecidableEq (Except ε α) := fun x y =>
  match x, y with
  | .ok a, .ok b =>
      if h : a = b then .isTrue (by rw [h]) else .isFalse (by simp [h])
  | .ok _, .error _ => .isFalse (by simp)
  | .error _, .ok _ => .isFalse (by simp)
  | .error e, .error e' =>
      if h : e = e' then .isTrue (by rw [h]) else .isFalse (by simp [h])

/- CLAIM THEOREMS. -/

/-- Claim C1: the claim states that every entity type's update handler
fails with HTTP 404 when a well-formed identifier matches no document
and that no update handler reports success on zero matches.  The code
violates this: at the well-formed identifier `oid0` against the empty
database, `update_venue` and `update_booking` report success even
though zero documents matched, while `update_event` and
`update_attendee` do return 404 as the claim demands. -/
theorem claim_C1_bug :
    parseObjectId oid0 = some 0 ∧
    emptyDB.venues = [] ∧ emptyDB.bookings = [] ∧
    (update_venue emptyDB oid0 wVenue).1 = .ok "Venue updated" ∧
    (update_booking emptyDB oid0 wBooking).1 = .ok "Booking updated" ∧
    (update_event emptyDB oid0 wEvent).1 = .error (.http 404 "Event not found") ∧
    (update_attendee emptyDB oid0 wAttendee).1 = .error (.http 404 "Not found") := by
  decide

/-- Claim C2: the claim states that every entity type's delete handler
checks the deleted count and reports not-found instead of silently
confirming deletion.  The code violates this: at the well-formed
identifier `oid0` against the empty database, `delete_attendee`,
`delete_venue` and `delete_booking` report success although zero
documents were deleted; only `delete_event` checks its count. -/
theorem claim_C2_bug :
    parseObjectId oid0 = some 0 ∧
    emptyDB.attendees = [] ∧ emptyDB.venues = [] ∧ emptyDB.bookings = [] ∧
    (delete_attendee emptyDB oid0).1 = .ok "Attendee deleted" ∧
    (delete_venue emptyDB oid0).1 = .ok "Venue deleted" ∧
    (delete_booking emptyDB oid0).1 = .ok "Booking deleted" ∧
    (delete_event emptyDB oid0).1 = .error (.http 404 "Event not found") := by
  decide

/-- Claim C5 as stated is false: on the malformed identifier "xyz"
(not a well-formed database key) the update and delete handlers do not
produce a structured client error; the uncaught `InvalidId` exception
escapes the handler and surfaces as a generic server error. -/
theorem claim_C5_counterexample :
    parseObjectId "xyz" = none ∧
    (update_event emptyDB "xyz" wEvent).1 = .error (.invalidIdExn "xyz") ∧
    isClientError (update_event emptyDB "xyz" wEvent).1 = false ∧
    (delete_event emptyDB "xyz").1 = .error (.invalidIdExn "xyz") ∧
    isClientError (delete_event emptyDB "xyz").1 = false := by
  decide

/-- Claim C5 amended: for every identifier string that is not a
well-formed database key, the update and delete handlers of every
entity type raise an uncaught `InvalidId` exception (surfaced by the
framework as a generic server error, not a structured client error)
and leave the database unchanged. -/
theorem claim_C5_amended (db : DB) (s : String) (e : Event) (a : Attendee)
    (v : Venue) (b : Booking) (h : parseObjectId s = none) :
    update_event db s e = (.error (.invalidIdExn s), db) ∧
    delete_event db s = (.error (.invalidIdExn s), db) ∧
    update_attendee db s a = (.error (.invalidIdExn s), db) ∧
    delete_attendee db s = (.error (.invalidIdExn s), db) ∧
    update_venue db s v = (.error (.invalidIdExn s), db) ∧
    delete_venue db s = (.error (.invalidIdExn s), db) ∧
    update_booking db s b = (.error (.invalidIdExn s), db) ∧
    delete_booking db s = (.error (.invalidIdExn s), db) := by
  simp [update_event, delete_event, update_attendee, delete_attendee,
        update_venue, delete_venue, update_booking, delete_booking, h]

/-- Witness for the amended claim C5 at the concrete malformed
identifier "xyz" against the empty database. -/
theorem claim_C5_witness :
    parseObjectId "xyz" = none ∧
    (update_event emptyDB "xyz" wEvent = (.error (.invalidIdExn "xyz"), emptyDB) ∧
     delete_event emptyDB "xyz" = (.error (.invalidIdExn "xyz"), emptyDB) ∧
     update_attendee emptyDB "xyz" wAttendee = (.error (.invalidIdExn "xyz"), emptyDB) ∧
     delete_attendee emptyDB "xyz" = (.error (.invalidIdExn "xyz"), emptyDB) ∧
     update_venue emptyDB "xyz" wVenue = (.error (.invalidIdExn "xyz"), emptyDB) ∧
     delete_venue emptyDB "xyz" = (.error (.invalidIdExn "xyz"), emptyDB) ∧
     update_booking emptyDB "xyz" wBooking = (.error (.invalidIdExn "xyz"), emptyDB) ∧
     delete_booking emptyDB "xyz" = (.error (.invalidIdExn "xyz"), emptyDB)) :=
  ⟨by decide,
   claim_C5_amended emptyDB "xyz" wEvent wAttendee wVenue wBooking (by decide)⟩

/-- Claim C6: the claim states that GET / is handled by the server and
redirects to the API documentation page.  The code violates this: the
`root` function body would indeed redirect to `/docs`, but it carries
no route decorator, so `("GET", "/")` is absent from the registered
routes and the framework answers GET / with its default 404. -/
theorem claim_C6_bug :
    registeredRoutes.contains ("GET", "/") = false ∧
    root = { url := "/docs" } := by
  decide

/-- Claim C7 as stated is false: the two registered definitions of the
promo-video download route (and likewise of the venue-photo download
route) do not denote the same function — on an owner with no stored
attachment they return 404 with different detail messages. -/
theorem claim_C7_counterexample :
    get_promo_video emptyDB "e1" = .error (.http 404 "Video not found") ∧
    get_promo_video_dup emptyDB "e1" =
      .error (.http 404 "Promotional video not found") ∧
    decide (get_promo_video emptyDB "e1" = get_promo_video_dup emptyDB "e1")
      = false ∧
    get_venue_photo emptyDB "v1" = .error (.http 404 "Photo not found") ∧
    get_venue_photo_dup emptyDB "v1" =
      .error (.http 404 "Venue photo not found") ∧
    decide (get_venue_photo emptyDB "v1" = get_venue_photo_dup emptyDB "v1")
      = false := by
  decide

/-- Claim C7 amended: the duplicated poster download and the three
duplicated upload routes denote the same function; the duplicated
promo-video and venue-photo download routes agree on every success
response and on the error status of the no-attachment case, differing
only in the 404 detail message. -/
theorem claim_C7_amended :
    (∀ db x, get_poster db x = get_poster_dup db x) ∧
    (∀ db x f t, upload_event_poster db x f t = upload_event_poster_dup db x f t) ∧
    (∀ db x f t, upload_promo_video db x f t = upload_promo_video_dup db x f t) ∧
    (∀ db x f t, upload_venue_photo db x f t = upload_venue_photo_dup db x f t) ∧
    (∀ db x, okPart (get_promo_video db x) = okPart (get_promo_video_dup db x)) ∧
    (∀ db x, errStatus (get_promo_video db x) = errStatus (get_promo_video_dup db x)) ∧
    (∀ db x, okPart (get_venue_photo db x) = okPart (get_venue_photo_dup db x)) ∧
    (∀ db x, errStatus (get_venue_photo db x) = errStatus (get_venue_photo_dup db x)) := by
  refine ⟨fun db x => rfl, fun db x f t => rfl, fun db x f t => rfl,
          fun db x f t => rfl, ?_, ?_, ?_, ?_⟩
  · intro db x
    unfold get_promo_video get_promo_video_dup
    cases findOwner db.promo_videos x <;> rfl
  · intro db x
    unfold get_promo_video get_promo_video_dup
    cases findOwner db.promo_videos x <;> rfl
  · intro db x
    unfold get_venue_photo get_venue_photo_dup
    cases findOwner db.venue_photos x <;> rfl
  · intro db x
    unfold get_venue_photo get_venue_photo_dup
    cases findOwner db.venue_photos x <;> rfl

/-- Claim C3 as stated is false: against a database already holding 100
events, the created document is assigned identifier 100 and the POST
response carries it, but the subsequent GET (capped at 100 documents)
returns no document with the submitted payload's fields and the new
identifier, so the round trip does not yield the created document. -/
theorem claim_C3_counterexample :
    (dbWithEvents 100).events.length = 100 ∧
    (create_event (dbWithEvents 100) wEventB).1 =
      { message := "Event created", id := oidToString 100 } ∧
    (get_events (create_event (dbWithEvents 100) wEventB).2).contains
      ⟨oidToString 100, wEventB⟩ = false ∧
    (get_events (create_event (dbWithEvents 100) wEventB).2).all
      (fun d => d.fields != wEventB) = true := by
  decide

/-- Claim C3 amended: for every valid entity payload, provided the
collection held fewer than 100 documents before the POST, creating the
entity and then listing the collection yields a document that is
exactly the submitted fields plus the assigned identifier rendered as
a string, and the POST response's id equals that identifier — for each
of the four entity types. -/
theorem claim_C3_amended (db : DB) (e : Event) (a : Attendee) (v : Venue)
    (b : Booking) (hev : db.events.length < 100)
    (hat : db.attendees.length < 100) (hve : db.venues.length < 100)
    (hbo : db.bookings.length < 100) :
    ((create_event db e).1.id = oidToString db.nextId ∧
      (⟨oidToString db.nextId, e⟩ : Rendered Event) ∈
        get_events (create_event db e).2) ∧
    ((create_attendee db a).1.id = oidToString db.nextId ∧
      (⟨oidToString db.nextId, a⟩ : Rendered Attendee) ∈
        get_attendees (create_attendee db a).2) ∧
    ((create_venue db v).1.id = oidToString db.nextId ∧
      (⟨oidToString db.nextId, v⟩ : Rendered Venue) ∈
        get_venues (create_venue db v).2) ∧
    ((create_booking db b).1.id = oidToString db.nextId ∧
      (⟨oidToString db.nextId, b⟩ : Rendered Booking) ∈
        get_bookings (create_booking db b).2) :=
  ⟨⟨rfl, mem_renderList_insert db.events db.nextId e hev⟩,
   ⟨rfl, mem_renderList_insert db.attendees db.nextId a hat⟩,
   ⟨rfl, mem_renderList_insert db.venues db.nextId v hve⟩,
   ⟨rfl, mem_renderList_insert db.bookings db.nextId b hbo⟩⟩

/-- Witness for the amended claim C3 at the empty database. -/
theorem claim_C3_witness :
    emptyDB.events.length < 100 ∧ emptyDB.attendees.length < 100 ∧
    emptyDB.venues.length < 100 ∧ emptyDB.bookings.length < 100 ∧
    (((create_event emptyDB wEvent).1.id = oidToString emptyDB.nextId ∧
       (⟨oidToString emptyDB.nextId, wEvent⟩ : Rendered Event) ∈
         get_events (create_event emptyDB wEvent).2) ∧
     ((create_attendee emptyDB wAttendee).1.id = oidToString emptyDB.nextId ∧
       (⟨oidToString emptyDB.nextId, wAttendee⟩ : Rendered Attendee) ∈
         get_attendees (create_attendee emptyDB wAttendee).2) ∧
     ((create_venue emptyDB wVenue).1.id = oidToString emptyDB.nextId ∧
       (⟨oidToString emptyDB.nextId, wVenue⟩ : Rendered Venue) ∈
         get_venues (create_venue emptyDB wVenue).2) ∧
     ((create_booking emptyDB wBooking).1.id = oidToString emptyDB.nextId ∧
       (⟨oidToString emptyDB.nextId, wBooking⟩ : Rendered Booking) ∈
         get_bookings (create_booking emptyDB wBooking).2)) :=
  ⟨by decide, by decide, by decide, by decide,
   claim_C3_amended emptyDB wEvent wAttendee wVenue wBooking
     (by decide) (by decide) (by decide) (by decide)⟩

/-- Claim C4: uploading an attachment for an owning identifier that had
none (so that it then has exactly one) and downloading for that
identifier returns exactly the uploaded bytes with the declared
content type, for posters, promo videos and venue photos alike. -/
theorem claim_C4 (db : DB) (x : String) (f : FileUpload) (t : Nat)
    (h1 : findOwner db.event_posters x = none)
    (h2 : findOwner db.promo_videos x = none)
    (h3 : findOwner db.venue_photos x = none) :
    get_poster (upload_event_poster db x f t).2 x =
      .ok (.stream f.content f.content_type) ∧
    get_promo_video (upload_promo_video db x f t).2 x =
      .ok (.stream f.content f.content_type) ∧
    get_venue_photo (upload_venue_photo db x f t).2 x =
      .ok (.stream f.content f.content_type) := by
  refine ⟨?_, ?_, ?_⟩
  · unfold get_poster upload_event_poster
    rw [findOwner_insert_self db.event_posters db.nextId x f t h1]
    rfl
  · unfold get_promo_video upload_promo_video
    rw [findOwner_insert_self db.promo_videos db.nextId x f t h2]
    rfl
  · unfold get_venue_photo upload_venue_photo
    rw [findOwner_insert_self db.venue_photos db.nextId x f t h3]
    rfl

/-- Witness for claim C4: a concrete PNG upload for owner "ev1" against
the empty database round-trips through each download route. -/
theorem claim_C4_witness :
    findOwner emptyDB.event_posters "ev1" = none ∧
    findOwner emptyDB.promo_videos "ev1" = none ∧
    findOwner emptyDB.venue_photos "ev1" = none ∧
    (get_poster (upload_event_poster emptyDB "ev1" wFile 0).2 "ev1" =
       .ok (.stream wFile.content wFile.content_type) ∧
     get_promo_video (upload_promo_video emptyDB "ev1" wFile 0).2 "ev1" =
       .ok (.stream wFile.content wFile.content_type) ∧
     get_venue_photo (upload_venue_photo emptyDB "ev1" wFile 0).2 "ev1" =
       .ok (.stream wFile.content wFile.content_type)) :=
  ⟨rfl, rfl, rfl, claim_C4 emptyDB "ev1" wFile 0 rfl rfl rfl⟩

/-- Claim C8: every list endpoint returns at most 100 documents, for
every database state; at the boundaries, a collection of exactly 100
documents lists 100 and a collection of 101 documents also lists
exactly 100. -/
theorem claim_C8 :
    (∀ db : DB, (get_events db).length ≤ 100 ∧
      (get_attendees db).length ≤ 100 ∧ (get_venues db).length ≤ 100 ∧
      (get_bookings db).length ≤ 100) ∧
    (dbWithEvents 100).events.length = 100 ∧
    (get_events (dbWithEvents 100)).length = 100 ∧
    (dbWithEvents 101).events.length = 101 ∧
    (get_events (dbWithEvents 101)).length = 100 ∧
    (dbWithBookings 100).bookings.length = 100 ∧
    (get_bookings (dbWithBookings 100)).length = 100 ∧
    (dbWithBookings 101).bookings.length = 101 ∧
    (get_bookings (dbWithBookings 101)).length = 100 := by
  refine ⟨fun db => ⟨renderList_length_le _, renderList_length_le _,
    renderList_length_le _, renderList_length_le _⟩, ?_, ?_, ?_, ?_, ?_, ?_, ?_, ?_⟩ <;>
    simp [dbWithEvents, dbWithBookings, get_events, get_bookings, renderList,
          List.length_take]

/-- Claim C9: each download route, asked for an owning identifier with
no stored attachment of its kind, returns HTTP 404 with a descriptive
message and never a success response (so never 200 with an empty
body). -/
theorem claim_C9 (db : DB) (x : String)
    (h1 : findOwner db.event_posters x = none)
    (h2 : findOwner db.promo_videos x = none)
    (h3 : findOwner db.venue_photos x = none) :
    (get_poster db x = .error (.http 404 "File not found") ∧
      okPart (get_poster db x) = none) ∧
    (get_promo_video db x = .error (.http 404 "Video not found") ∧
      okPart (get_promo_video db x) = none) ∧
    (get_venue_photo db x = .error (.http 404 "Photo not found") ∧
      okPart (get_venue_photo db x) = none) := by
  simp [get_poster, get_promo_video, get_venue_photo, h1, h2, h3, okPart]

/-- Witness for claim C9 at the empty database and owner "nobody". -/
theorem claim_C9_witness :
    findOwner emptyDB.event_posters "nobody" = none ∧
    findOwner emptyDB.promo_videos "nobody" = none ∧
    findOwner emptyDB.venue_photos "nobody" = none ∧
    ((get_poster emptyDB "nobody" = .error (.http 404 "File not found") ∧
       okPart (get_poster emptyDB "nobody") = none) ∧
     (get_promo_video emptyDB "nobody" = .error (.http 404 "Video not found") ∧
       okPart (get_promo_video emptyDB "nobody") = none) ∧
     (get_venue_photo emptyDB "nobody" = .error (.http 404 "Photo not found") ∧
       okPart (get_venue_photo emptyDB "nobody") = none)) :=
  ⟨rfl, rfl, rfl, claim_C9 emptyDB "nobody" rfl rfl rfl⟩

/-- Claim C10: for every entity type, an update with a well-formed
identifier touches only its own collection (every other collection and
the id counter are unchanged) and within that collection modifies at
most the single document whose `_id` equals the identifier, replacing
only the model's declared fields and keeping the `_id`; every other
document is unchanged. -/
theorem claim_C10 (db : DB) (s : String) (oid : Nat) (e : Event)
    (a : Attendee) (v : Venue) (b : Booking)
    (h : parseObjectId s = some oid) :
    (framesExceptEvents db (update_event db s e).2 ∧
      frameUpdate db.events (update_event db s e).2.events oid e) ∧
    (framesExceptAttendees db (update_attendee db s a).2 ∧
      frameUpdate db.attendees (update_attendee db s a).2.attendees oid a) ∧
    (framesExceptVenues db (update_venue db s v).2 ∧
      frameUpdate db.venues (update_venue db s v).2.venues oid v) ∧
    (framesExceptBookings db (update_booking db s b).2 ∧
      frameUpdate db.bookings (update_booking db s b).2.bookings oid b) := by
  rw [update_event_state db s oid e h, update_attendee_state db s oid a h,
      update_venue_state db s oid v h, update_booking_state db s oid b h]
  exact ⟨⟨⟨rfl, rfl, rfl, rfl, rfl, rfl, rfl⟩, updateFirst_frame db.events oid e⟩,
         ⟨⟨rfl, rfl, rfl, rfl, rfl, rfl, rfl⟩, updateFirst_frame db.attendees oid a⟩,
         ⟨⟨rfl, rfl, rfl, rfl, rfl, rfl, rfl⟩, updateFirst_frame db.venues oid v⟩,
         ⟨⟨rfl, rfl, rfl, rfl, rfl, rfl, rfl⟩, updateFirst_frame db.bookings oid b⟩⟩

/-- Witness for claim C10 at the well-formed identifier `oid0` against
the empty database. -/
theorem claim_C10_witness :
    parseObjectId oid0 = some 0 ∧
    ((framesExceptEvents emptyDB (update_event emptyDB oid0 wEvent).2 ∧
       frameUpdate emptyDB.events (update_event emptyDB oid0 wEvent).2.events 0 wEvent) ∧
     (framesExceptAttendees emptyDB (update_attendee emptyDB oid0 wAttendee).2 ∧
       frameUpdate emptyDB.attendees (update_attendee emptyDB oid0 wAttendee).2.attendees 0 wAttendee) ∧
     (framesExceptVenues emptyDB (update_venue emptyDB oid0 wVenue).2 ∧
       frameUpdate emptyDB.venues (update_venue emptyDB oid0 wVenue).2.venues 0 wVenue) ∧
     (framesExceptBookings emptyDB (update_booking emptyDB oid0 wBooking).2 ∧
       frameUpdate emptyDB.bookings (update_booking emptyDB oid0 wBooking).2.bookings 0 wBooking)) :=
  ⟨by decide,
   claim_C10 emptyDB oid0 0 wEvent wAttendee wVenue wBooking (by decide)⟩

end DBEss
